import Mathlib

/-!
Verification development for the career-assistant application.

The frontend components (FileUpload, AnalysisResults, DocumentGeneration,
EmailSender, Home page) are embedded from the TypeScript sources as pure
functions on explicit state.  The backend pipeline (skill-gap aggregator,
artifact store, AI client retry policy) is not part of the sources and is
modelled from the specification where a claim depends on it; each such
definition carries a doc comment saying so.
-/

namespace CareerAssistant

/-! ## Data model (from frontend component prop types) -/

/-- Job facts, from the AnalysisResultsProps data shape in
AnalysisResults.tsx together with the contact_email field read by
page.tsx. -/
structure JobAnalysis where
  job_title : String
  company_name : Option String
  contact_email : Option String
  required_skills : List String
  preferred_skills : List String
  key_responsibilities : List String
deriving DecidableEq

/-- Resume facts, from AnalysisResultsProps in AnalysisResults.tsx. -/
structure ResumeAnalysis where
  candidate_name : Option String
  skills : List String
  experience : List String
  education : List String
  summary : Option String
deriving DecidableEq

/-- Skill-gap lists as the frontend receives them, from
AnalysisResultsProps in AnalysisResults.tsx. -/
structure SkillGap where
  matching_skills : List String
  missing_skills : List String
  partial_skills : List String
deriving DecidableEq

/-- The analysis payload held by the Home page, from AnalysisResultsProps
in AnalysisResults.tsx (match_percentage sits beside skill_gap). -/
structure AnalysisData where
  job_analysis : JobAnalysis
  resume_analysis : ResumeAnalysis
  skill_gap : SkillGap
  match_percentage : Nat
deriving DecidableEq

/-! ## JavaScript string truthiness

The sources use the pattern `x || fallback` where `x` is a string or a
nullable string; the fallback is taken when `x` is null, undefined or the
empty string. -/

/-- JavaScript-style `v || dflt` on a nullable string: the default is used
when the value is null or the empty string. -/
def jsStr (v : Option String) (dflt : String) : String :=
  match v with
  | some s => if s = "" then dflt else s
  | none => dflt

/-! ## Skill-gap aggregator (spec-modelled) -/

/-- Case-insensitive string equality via per-character lowering. -/
def eqIgnoreCase (a b : String) : Bool :=
  a.data.map Char.toLower == b.data.map Char.toLower

/-- Does a skill from the job description occur (case-insensitively)
among the resume skills? -/
def skillMatches (resumeSkills : List String) (s : String) : Bool :=
  resumeSkills.any (fun r => eqIgnoreCase s r)

/-- Denominator of the match formula: `max(1, |matching| + |missing|)`. -/
def matchDenom (m k : Nat) : Nat := max 1 (m + k)

/-- Modelled from the spec: match percentage formula of section 4.3,
`round(100 * |matching| / max(1, |matching| + |missing|))` clamped to
[0, 100], with round half-up computed as
`(200 * m + d) / (2 * d)` in integer arithmetic
(backend/services/skill_analyzer.py is not among the sources). -/
def matchPercentage (m k : Nat) : Nat :=
  min 100 ((200 * m + matchDenom m k) / (2 * matchDenom m k))

/-- A computed SkillGap value as the spec data model describes it
(section 3): the three lists plus the integer percentage. -/
structure ComputedSkillGap where
  matching_skills : List String
  missing_skills : List String
  partial_skills : List String
  match_percentage : Nat
deriving DecidableEq

/-- Modelled from the spec: the deterministic local fallback of
compute_gap in section 4.3 — a case-insensitive set comparison of the
required skills against the resume skills, with the section 4.3 match
percentage formula (backend/services/skill_analyzer.py is not among the
sources). -/
def computeGap (required resumeSkills : List String) : ComputedSkillGap :=
  let matching := required.filter (fun s => skillMatches resumeSkills s)
  let missing := required.filter (fun s => !(skillMatches resumeSkills s))
  { matching_skills := matching
    missing_skills := missing
    partial_skills := []
    match_percentage := matchPercentage matching.length missing.length }

/-! ## Helper lemmas for the match percentage -/

theorem le_matchDenom (m k : Nat) : m ≤ matchDenom m k :=
  le_trans (Nat.le_add_right m k) (le_max_right 1 (m + k))

theorem matchDenom_pos (m k : Nat) : 1 ≤ matchDenom m k :=
  le_max_left 1 (m + k)

/-- The unclamped rounded quotient never exceeds 100, so the clamp in
matchPercentage is the identity. -/
theorem matchRound_le (m k : Nat) :
    (200 * m + matchDenom m k) / (2 * matchDenom m k) ≤ 100 := by
  have hm := le_matchDenom m k
  have hd := matchDenom_pos m k
  have h : 200 * m + matchDenom m k < 101 * (2 * matchDenom m k) := by omega
  exact Nat.lt_succ_iff.mp ((Nat.div_lt_iff_lt_mul (by omega)).mpr h)

theorem matchPercentage_eq_unclamped (m k : Nat) :
    matchPercentage m k = (200 * m + matchDenom m k) / (2 * matchDenom m k) :=
  min_eq_right (matchRound_le m k)

/-- C1: every computed SkillGap has match_percentage equal to
round(100 * |matching| / max(1, |matching| + |missing|)) clamped to
[0, 100] (the clamp being vacuous), an integer in [0, 100]; it is 0 when
matching and missing are both empty, and the spec scenario
required=[Python, SQL], resume=[Python] yields matching=[Python],
missing=[SQL], match_percentage=50. -/
theorem computeGap_match_percentage_spec (required resumeSkills : List String) :
    (computeGap required resumeSkills).match_percentage
        = matchPercentage (computeGap required resumeSkills).matching_skills.length
            (computeGap required resumeSkills).missing_skills.length ∧
    matchPercentage (computeGap required resumeSkills).matching_skills.length
        (computeGap required resumeSkills).missing_skills.length
        = (200 * (computeGap required resumeSkills).matching_skills.length
            + matchDenom (computeGap required resumeSkills).matching_skills.length
                (computeGap required resumeSkills).missing_skills.length)
          / (2 * matchDenom (computeGap required resumeSkills).matching_skills.length
                (computeGap required resumeSkills).missing_skills.length) ∧
    (computeGap required resumeSkills).match_percentage ≤ 100 ∧
    ((computeGap required resumeSkills).matching_skills = [] →
      (computeGap required resumeSkills).missing_skills = [] →
      (computeGap required resumeSkills).match_percentage = 0) ∧
    computeGap ["Python", "SQL"] ["Python"]
        = { matching_skills := ["Python"], missing_skills := ["SQL"],
            partial_skills := [], match_percentage := 50 } := by
  refine ⟨rfl, matchPercentage_eq_unclamped _ _, min_le_left 100 _, ?_, by decide⟩
  intro h1 h2
  have hpct : (computeGap required resumeSkills).match_percentage
      = matchPercentage (computeGap required resumeSkills).matching_skills.length
          (computeGap required resumeSkills).missing_skills.length := rfl
  rw [hpct, h1, h2]
  decide

/-- Witness for C1 at the concrete input of two empty skill lists. -/
theorem computeGap_match_percentage_spec_witness :
    (computeGap [] []).matching_skills = [] ∧
    (computeGap [] []).missing_skills = [] ∧
    (computeGap [] []).match_percentage = 0 :=
  ⟨by decide, by decide,
    (computeGap_match_percentage_spec [] []).2.2.2.1 (by decide) (by decide)⟩

/-- C2: for every computed SkillGap value, matching_skills and
missing_skills are disjoint: no skill string is a member of both lists. -/
theorem computeGap_disjoint (required resumeSkills : List String) (s : String) :
    s ∈ (computeGap required resumeSkills).matching_skills →
    s ∉ (computeGap required resumeSkills).missing_skills := by
  intro hmem hmem2
  simp only [computeGap, List.mem_filter] at hmem hmem2
  have h1 := hmem.2
  have h2 := hmem2.2
  simp [h1] at h2

/-- Witness for C2: in the spec scenario, Python is a matching skill and
therefore not a missing one. -/
theorem computeGap_disjoint_witness :
    "Python" ∈ (computeGap ["Python", "SQL"] ["Python"]).matching_skills ∧
    "Python" ∉ (computeGap ["Python", "SQL"] ["Python"]).missing_skills :=
  ⟨by decide, computeGap_disjoint ["Python", "SQL"] ["Python"] "Python" (by decide)⟩

/-! ## Document generation: kinds, formats and fixed filenames

handleGenerateResume and handleGenerateCoverLetter in the
DocumentGeneration component build a fixed filename from the requested
format and track the backend path `generated/<filename>` for email
attachment. -/

/-- The two output formats the DocumentGeneration buttons offer. -/
inductive DocFormat where
  | docx
  | pdf
deriving DecidableEq

/-- The two generated document kinds. -/
inductive DocKind where
  | resume
  | coverLetter
deriving DecidableEq

/-- File extension of a format, as interpolated into the template
literals of the DocumentGeneration handlers. -/
def formatExt : DocFormat → String
  | .docx => "docx"
  | .pdf => "pdf"

/-- The fixed filename the handlers use: `latest_resume.<format>` in
handleGenerateResume and `latest_cover_letter.<format>` in
handleGenerateCoverLetter. -/
def fixedFilename : DocKind → DocFormat → String
  | .resume, f => "latest_resume." ++ formatExt f
  | .coverLetter, f => "latest_cover_letter." ++ formatExt f

/-- Modelled from the spec: the backend artifact store (section 6) is a
directory mapping filenames to file contents; a generation writes its
bytes at the fixed filename for its kind and format, overwriting any
previous file there (the backend document generator is not among the
sources).  Contents are abstracted as natural-number identifiers. -/
def writeArtifact (store : String → Option Nat) (k : DocKind) (f : DocFormat)
    (content : Nat) : String → Option Nat :=
  fun name => if name = fixedFilename k f then some content else store name

/-- C3: each successful generation produces the artifact named exactly
latest_resume.<format> or latest_cover_letter.<format>; distinct
(kind, format) pairs occupy distinct names, so at most one latest
artifact exists per pair, and a second generation of the same pair
overwrites the first. -/
theorem generation_fixed_filenames :
    (∀ f, fixedFilename DocKind.resume f = "latest_resume." ++ formatExt f) ∧
    (∀ f, fixedFilename DocKind.coverLetter f
        = "latest_cover_letter." ++ formatExt f) ∧
    (∀ k f k₂ f₂, fixedFilename k f = fixedFilename k₂ f₂ → k = k₂ ∧ f = f₂) ∧
    (∀ store k f c₁ c₂,
      writeArtifact (writeArtifact store k f c₁) k f c₂ (fixedFilename k f)
        = some c₂) ∧
    (∀ store k f k₂ f₂ c, (k, f) ≠ (k₂, f₂) →
      writeArtifact store k f c (fixedFilename k₂ f₂) = store (fixedFilename k₂ f₂)) := by
  refine ⟨fun f => rfl, fun f => rfl, ?_, ?_, ?_⟩
  · intro k f k₂ f₂ h
    cases k <;> cases f <;> cases k₂ <;> cases f₂ <;>
      first
        | exact ⟨rfl, rfl⟩
        | exact absurd h (by decide)
  · intro store k f c₁ c₂
    simp [writeArtifact]
  · intro store k f k₂ f₂ c h
    cases k <;> cases f <;> cases k₂ <;> cases f₂ <;>
      first
        | exact absurd rfl h
        | (simp only [writeArtifact]; exact if_neg (by decide))

/-- Witness for C3: the injectivity component applied at the resume/pdf
pair, the overwrite component at a two-write sequence, and the
frame component at distinct pairs. -/
theorem generation_fixed_filenames_witness :
    (DocKind.resume = DocKind.resume ∧ DocFormat.pdf = DocFormat.pdf) ∧
    writeArtifact (writeArtifact (fun _ => none) DocKind.resume DocFormat.pdf 1)
        DocKind.resume DocFormat.pdf 2 "latest_resume.pdf" = some 2 ∧
    writeArtifact (fun _ => none) DocKind.resume DocFormat.pdf 1
        "latest_cover_letter.docx" = none :=
  ⟨generation_fixed_filenames.2.2.1 DocKind.resume DocFormat.pdf
      DocKind.resume DocFormat.pdf rfl,
    generation_fixed_filenames.2.2.2.1 (fun _ => none)
      DocKind.resume DocFormat.pdf 1 2,
    generation_fixed_filenames.2.2.2.2 (fun _ => none)
      DocKind.resume DocFormat.pdf DocKind.coverLetter DocFormat.docx 1
      (by decide)⟩

/-! ## EmailSender component

State and handlers of the EmailSender component: the recipient, subject
and body fields (initialised from the props), the two attachment paths
passed as props, and the sending/success/error flags. -/

/-- Mutable state of the EmailSender component together with its path
props. -/
structure EmailState where
  recipientEmail : String
  subject : String
  body : String
  resumePath : String
  coverLetterPath : String
  sending : Bool
  success : Option String
  error : Option String
deriving DecidableEq

/-- The JSON body handleSendEmail posts to /api/send-email. -/
structure SendRequest where
  recipient_email : String
  subject : String
  body : String
  resume_path : String
  cover_letter_path : String
deriving DecidableEq

/-- Initial recipient field: `contactEmail || ""`. -/
def initialRecipientEmail (contactEmail : Option String) : String :=
  jsStr contactEmail ""

/-- Initial subject field:
`Application for <jobTitle>` with ` - <candidateName>` appended when the
candidateName prop is truthy (non-null and non-empty). -/
def initialSubject (jobTitle : String) (candidateName : Option String) : String :=
  "Application for " ++ jobTitle
    ++ (match candidateName with
        | some n => if n = "" then "" else " - " ++ n
        | none => "")

/-- Initial EmailSender state from its props.  The body template literal
is taken as an opaque argument: no claim concerns its text. -/
def emailSenderInit (contactEmail : Option String) (jobTitle : String)
    (candidateName : Option String) (bodyText : String)
    (resumePath coverLetterPath : String) : EmailState :=
  { recipientEmail := initialRecipientEmail contactEmail
    subject := initialSubject jobTitle candidateName
    body := bodyText
    resumePath := resumePath
    coverLetterPath := coverLetterPath
    sending := false
    success := none
    error := none }

/-- The guard stage of handleSendEmail: an empty recipient or a missing
document path sets an error and issues no request; otherwise the fetch
request is issued with the state's fields. -/
def handleSendEmail (s : EmailState) : EmailState × Option SendRequest :=
  if s.recipientEmail = "" then
    ({ s with error := some "Please enter a recipient email address" }, none)
  else if s.resumePath = "" ∨ s.coverLetterPath = "" then
    ({ s with error := some "Please generate documents before sending email" }, none)
  else
    ({ s with sending := true, error := none, success := none },
      some { recipient_email := s.recipientEmail, subject := s.subject,
             body := s.body, resume_path := s.resumePath,
             cover_letter_path := s.coverLetterPath })

/-- Disabled condition of the send button:
`sending || !recipientEmail || !resumePath || !coverLetterPath`. -/
def sendDisabled (s : EmailState) : Bool :=
  s.sending || s.recipientEmail == "" || s.resumePath == "" || s.coverLetterPath == ""

/-- C4: a send-email request is only issued when both document paths are
non-empty; when either is missing, the handler records an error, issues
no request, and the send button is disabled. -/
theorem sendEmail_requires_documents (s : EmailState) :
    ((handleSendEmail s).2.isSome = true →
      s.resumePath ≠ "" ∧ s.coverLetterPath ≠ "") ∧
    (s.resumePath = "" ∨ s.coverLetterPath = "" →
      (handleSendEmail s).2 = none ∧
      ((handleSendEmail s).1).error.isSome = true ∧
      sendDisabled s = true) := by
  by_cases h1 : s.recipientEmail = "" <;>
    by_cases h2 : s.resumePath = "" <;>
      by_cases h3 : s.coverLetterPath = "" <;>
        simp [handleSendEmail, sendDisabled, h1, h2, h3]

/-- Witness for C4 at a state whose resume path is empty. -/
theorem sendEmail_requires_documents_witness :
    (handleSendEmail
        { recipientEmail := "hiring@example.com", subject := "Application",
          body := "Hello", resumePath := "",
          coverLetterPath := "generated/latest_cover_letter.pdf",
          sending := false, success := none, error := none }).2 = none ∧
    ((handleSendEmail
        { recipientEmail := "hiring@example.com", subject := "Application",
          body := "Hello", resumePath := "",
          coverLetterPath := "generated/latest_cover_letter.pdf",
          sending := false, success := none, error := none }).1).error.isSome = true ∧
    sendDisabled
        { recipientEmail := "hiring@example.com", subject := "Application",
          body := "Hello", resumePath := "",
          coverLetterPath := "generated/latest_cover_letter.pdf",
          sending := false, success := none, error := none } = true :=
  (sendEmail_requires_documents
      { recipientEmail := "hiring@example.com", subject := "Application",
        body := "Hello", resumePath := "",
        coverLetterPath := "generated/latest_cover_letter.pdf",
        sending := false, success := none, error := none }).2 (Or.inl rfl)

/-- C10 counterexample: with the non-null empty-string candidate name,
the initial subject does not carry the ` - <candidateName>` suffix the
claim predicts for every non-null candidate name. -/
theorem emailSender_subject_counterexample :
    initialSubject "Engineer" (some "") ≠ "Application for Engineer - " := by
  decide

/-- C10 (amended): the initial recipient equals contactEmail when
non-null and is empty otherwise; the initial subject is
`Application for <jobTitle>` with ` - <candidateName>` appended exactly
when candidateName is non-null and non-empty. -/
theorem emailSender_initial_fields (contactEmail : Option String)
    (jobTitle : String) (candidateName : Option String) :
    initialRecipientEmail contactEmail
        = (match contactEmail with
           | some e => e
           | none => "") ∧
    initialSubject jobTitle candidateName
        = "Application for " ++ jobTitle
            ++ (match candidateName with
                | some n => if n = "" then "" else " - " ++ n
                | none => "") := by
  refine ⟨?_, rfl⟩
  cases contactEmail with
  | none => rfl
  | some e =>
      by_cases h : e = ""
      · simp [initialRecipientEmail, jsStr, h]
      · simp [initialRecipientEmail, jsStr, h]

/-! ## Generated document paths

The DocumentGeneration handlers track the backend attachment path
`generated/<fixed filename>` after each successful generation and
report the pair of paths to the Home page, whose generatedDocs state
feeds the EmailSender props. -/

/-- The generatedDocs state of the Home page: one backend path per
document kind, empty until that kind is generated. -/
structure GeneratedDocs where
  resumePath : String
  coverLetterPath : String
deriving DecidableEq

/-- Initial generatedDocs state of the Home page. -/
def initialDocs : GeneratedDocs := { resumePath := "", coverLetterPath := "" }

/-- The backend attachment path tracked after a successful generation:
`generated/<fixed filename>`. -/
def backendDocPath (k : DocKind) (f : DocFormat) : String :=
  "generated/" ++ fixedFilename k f

/-- One successful generation, as observed by the Home page through the
onDocumentsGenerated callback. -/
inductive GenEvent where
  | generated (k : DocKind) (f : DocFormat)

/-- Effect of a successful generation on the tracked paths:
handleGenerateResume sets the resume path, handleGenerateCoverLetter the
cover letter path, each to the backend path of its fixed filename. -/
def applyGenEvent (docs : GeneratedDocs) : GenEvent → GeneratedDocs
  | .generated .resume f => { docs with resumePath := backendDocPath .resume f }
  | .generated .coverLetter f =>
      { docs with coverLetterPath := backendDocPath .coverLetter f }

/-- The generatedDocs state after a sequence of successful generations,
starting from the empty initial state. -/
def runGenEvents (evs : List GenEvent) : GeneratedDocs :=
  evs.foldl applyGenEvent initialDocs

/-- Does the first character list start with the second? -/
def startsWithChars : List Char → List Char → Bool
  | _, [] => true
  | [], _ :: _ => false
  | c :: cs, d :: ds => c == d && startsWithChars cs ds

/-- Does the character list contain two consecutive dots? -/
def containsDotDot : List Char → Bool
  | [] => false
  | [_] => false
  | c₁ :: c₂ :: rest => (c₁ == '.' && c₂ == '.') || containsDotDot (c₂ :: rest)

/-- A path resolves within the artifact directory when it starts with
`generated/` and contains no `..` segment. -/
def inArtifactDir (p : String) : Bool :=
  startsWithChars p.data ("generated/".data) && !(containsDotDot p.data)

/-- A tracked path for a kind is either still empty or the backend path
of one of the two formats. -/
def docPathOk (k : DocKind) (p : String) : Prop :=
  p = "" ∨ ∃ f, p = backendDocPath k f

theorem runGenEvents_paths_ok_aux (evs : List GenEvent) (docs : GeneratedDocs)
    (h1 : docPathOk DocKind.resume docs.resumePath)
    (h2 : docPathOk DocKind.coverLetter docs.coverLetterPath) :
    docPathOk DocKind.resume (evs.foldl applyGenEvent docs).resumePath ∧
    docPathOk DocKind.coverLetter (evs.foldl applyGenEvent docs).coverLetterPath := by
  induction evs generalizing docs with
  | nil => exact ⟨h1, h2⟩
  | cons ev rest ih =>
      cases ev with
      | generated k f =>
          cases k with
          | resume => exact ih _ (Or.inr ⟨f, rfl⟩) h2
          | coverLetter => exact ih _ h1 (Or.inr ⟨f, rfl⟩)

theorem runGenEvents_paths_ok (evs : List GenEvent) :
    docPathOk DocKind.resume (runGenEvents evs).resumePath ∧
    docPathOk DocKind.coverLetter (runGenEvents evs).coverLetterPath :=
  runGenEvents_paths_ok_aux evs initialDocs (Or.inl rfl) (Or.inl rfl)

/-- Every backend document path lies within the artifact directory. -/
theorem inArtifactDir_backendDocPath (k : DocKind) (f : DocFormat) :
    inArtifactDir (backendDocPath k f) = true := by
  cases k <;> cases f <;> decide

/-- A request issued by handleSendEmail carries exactly the state's two
non-empty attachment paths. -/
theorem handleSendEmail_some (s : EmailState) (req : SendRequest)
    (h : (handleSendEmail s).2 = some req) :
    req.resume_path = s.resumePath ∧ req.cover_letter_path = s.coverLetterPath ∧
    s.resumePath ≠ "" ∧ s.coverLetterPath ≠ "" := by
  unfold handleSendEmail at h
  split at h
  · simp at h
  · split at h
    · simp at h
    · rename_i hor
      push_neg at hor
      simp only [Option.some.injEq] at h
      subst h
      exact ⟨rfl, rfl, hor.1, hor.2⟩

/-- C5: every attachment path submitted to /api/send-email is of the
form generated/latest_resume.<format> or
generated/latest_cover_letter.<format>, and resolves within the
artifact directory. -/
theorem sendEmail_paths_within_artifact_dir (evs : List GenEvent)
    (s : EmailState) (req : SendRequest)
    (h1 : s.resumePath = (runGenEvents evs).resumePath)
    (h2 : s.coverLetterPath = (runGenEvents evs).coverLetterPath)
    (h : (handleSendEmail s).2 = some req) :
    (∃ f, req.resume_path = backendDocPath DocKind.resume f) ∧
    inArtifactDir req.resume_path = true ∧
    (∃ f, req.cover_letter_path = backendDocPath DocKind.coverLetter f) ∧
    inArtifactDir req.cover_letter_path = true := by
  obtain ⟨hr, hc, hrne, hcne⟩ := handleSendEmail_some s req h
  obtain ⟨hok1, hok2⟩ := runGenEvents_paths_ok evs
  have hres : ∃ f, req.resume_path = backendDocPath DocKind.resume f := by
    rcases hok1 with hemp | ⟨f, hf⟩
    · exact absurd (h1.trans hemp) hrne
    · exact ⟨f, hr.trans (h1.trans hf)⟩
  have hcov : ∃ f, req.cover_letter_path = backendDocPath DocKind.coverLetter f := by
    rcases hok2 with hemp | ⟨f, hf⟩
    · exact absurd (h2.trans hemp) hcne
    · exact ⟨f, hc.trans (h2.trans hf)⟩
  obtain ⟨f₁, hf₁⟩ := hres
  obtain ⟨f₂, hf₂⟩ := hcov
  exact ⟨⟨f₁, hf₁⟩, hf₁ ▸ inArtifactDir_backendDocPath _ _,
    ⟨f₂, hf₂⟩, hf₂ ▸ inArtifactDir_backendDocPath _ _⟩

/-- Witness for C5 at a concrete generation history and send request. -/
theorem sendEmail_paths_within_artifact_dir_witness :
    (∃ f, "generated/latest_resume.docx" = backendDocPath DocKind.resume f) ∧
    inArtifactDir "generated/latest_resume.docx" = true ∧
    (∃ f, "generated/latest_cover_letter.pdf" = backendDocPath DocKind.coverLetter f) ∧
    inArtifactDir "generated/latest_cover_letter.pdf" = true :=
  sendEmail_paths_within_artifact_dir
    [GenEvent.generated DocKind.resume DocFormat.docx,
      GenEvent.generated DocKind.coverLetter DocFormat.pdf]
    { recipientEmail := "hiring@example.com", subject := "Application",
      body := "Hello", resumePath := "generated/latest_resume.docx",
      coverLetterPath := "generated/latest_cover_letter.pdf",
      sending := false, success := none, error := none }
    { recipient_email := "hiring@example.com", subject := "Application",
      body := "Hello", resume_path := "generated/latest_resume.docx",
      cover_letter_path := "generated/latest_cover_letter.pdf" }
    (by decide) (by decide) (by decide)

/-! ## FileUpload component

handleDrop and handleFileChange accept a selected or dropped file into
the resume or job-description slot only when its MIME type is
application/pdf; any other type leaves both slots unchanged and sets the
PDF-only error. -/

/-- The data of a browser File object the handlers inspect. -/
structure FileInfo where
  name : String
  type : String
deriving DecidableEq

/-- The two upload slots of the FileUpload component. -/
inductive UploadSlot where
  | resume
  | job
deriving DecidableEq

/-- State of the FileUpload component relevant to file selection. -/
structure UploadState where
  resumeFile : Option FileInfo
  jobFile : Option FileInfo
  error : Option String
deriving DecidableEq

/-- Drop handler: stores a PDF into the slot for its drop zone and
clears the error; any other MIME type only sets the PDF-only error. -/
def handleDrop (s : UploadState) (slot : UploadSlot) (file : FileInfo) : UploadState :=
  if file.type = "application/pdf" then
    match slot with
    | .resume => { s with resumeFile := some file, error := none }
    | .job => { s with jobFile := some file, error := none }
  else
    { s with error := some "Please upload PDF files only" }

/-- Change handler of the hidden file inputs; same logic as the drop
handler. -/
def handleFileChange (s : UploadState) (slot : UploadSlot) (file : FileInfo) : UploadState :=
  if file.type = "application/pdf" then
    match slot with
    | .resume => { s with resumeFile := some file, error := none }
    | .job => { s with jobFile := some file, error := none }
  else
    { s with error := some "Please upload PDF files only" }

/-- C6: a selected or dropped file is stored only when its MIME type is
application/pdf; for any other type both slots are unchanged and the
PDF-only error is set, in both handlers. -/
theorem fileUpload_pdf_only (s : UploadState) (slot : UploadSlot) (file : FileInfo) :
    (file.type ≠ "application/pdf" →
      handleDrop s slot file = { s with error := some "Please upload PDF files only" } ∧
      handleFileChange s slot file
        = { s with error := some "Please upload PDF files only" } ∧
      (handleDrop s slot file).resumeFile = s.resumeFile ∧
      (handleDrop s slot file).jobFile = s.jobFile ∧
      (handleFileChange s slot file).resumeFile = s.resumeFile ∧
      (handleFileChange s slot file).jobFile = s.jobFile) ∧
    (file.type = "application/pdf" →
      (match slot with
       | UploadSlot.resume =>
          handleDrop s slot file = { s with resumeFile := some file, error := none } ∧
          handleFileChange s slot file = { s with resumeFile := some file, error := none }
       | UploadSlot.job =>
          handleDrop s slot file = { s with jobFile := some file, error := none } ∧
          handleFileChange s slot file = { s with jobFile := some file, error := none })) := by
  by_cases h : file.type = "application/pdf" <;>
    cases slot <;> simp [handleDrop, handleFileChange, h]

/-- Witness for C6 at a concrete non-PDF file. -/
theorem fileUpload_pdf_only_witness :
    handleDrop { resumeFile := none, jobFile := none, error := none }
        UploadSlot.resume { name := "resume.txt", type := "text/plain" }
      = { resumeFile := none, jobFile := none,
          error := some "Please upload PDF files only" } ∧
    handleFileChange { resumeFile := none, jobFile := none, error := none }
        UploadSlot.resume { name := "resume.txt", type := "text/plain" }
      = { resumeFile := none, jobFile := none,
          error := some "Please upload PDF files only" } :=
  have h := (fileUpload_pdf_only { resumeFile := none, jobFile := none, error := none }
      UploadSlot.resume { name := "resume.txt", type := "text/plain" }).1 (by decide)
  ⟨h.1, h.2.1⟩

/-! ## Response handling of the HTTP client handlers

Each handler checks response.ok; on failure it throws the body's detail
message (with a handler-specific fallback applied to null, undefined or
empty detail) and the catch block records it as the displayed error.
The success continuation never runs on a failed response. -/

/-- The parts of an HTTP response the frontend handlers inspect. -/
structure HttpResponse where
  ok : Bool
  detail : Option String
  message : Option String
deriving DecidableEq

/-- Observable outcome of handleAnalyze after the fetch resolves:
the recorded error and whether onAnalysisComplete was invoked. -/
structure AnalyzeOutcome where
  error : Option String
  completed : Bool
deriving DecidableEq

/-- Response continuation of handleAnalyze in FileUpload. -/
def handleAnalyzeResponse (resp : HttpResponse) : AnalyzeOutcome :=
  if resp.ok then { error := none, completed := true }
  else { error := some (jsStr resp.detail "Analysis failed"), completed := false }

/-- Observable outcome of a generation handler after the fetch resolves:
the recorded error, the success banner, whether a file download was
triggered and whether the attachment path was tracked. -/
structure GenerateOutcome where
  error : Option String
  success : Option String
  downloaded : Bool
  pathSet : Bool
deriving DecidableEq

/-- Response continuation of handleGenerateResume in
DocumentGeneration. -/
def handleGenerateResumeResponse (f : DocFormat) (resp : HttpResponse) : GenerateOutcome :=
  if resp.ok then
    { error := none, success := some ("✅ Resume: " ++ fixedFilename DocKind.resume f),
      downloaded := true, pathSet := true }
  else
    { error := some (jsStr resp.detail "Resume generation failed"),
      success := none, downloaded := false, pathSet := false }

/-- Response continuation of handleGenerateCoverLetter in
DocumentGeneration. -/
def handleGenerateCoverLetterResponse (f : DocFormat) (resp : HttpResponse) : GenerateOutcome :=
  if resp.ok then
    { error := none,
      success := some ("✅ Cover Letter: " ++ fixedFilename DocKind.coverLetter f),
      downloaded := true, pathSet := true }
  else
    { error := some (jsStr resp.detail "Cover letter generation failed"),
      success := none, downloaded := false, pathSet := false }

/-- Response continuation of handleSendEmail in EmailSender, applied to
the state the guard stage produced. -/
def handleSendEmailResponse (s : EmailState) (resp : HttpResponse) : EmailState :=
  if resp.ok then
    { s with
      success := some (jsStr resp.message "Email sent successfully!")
      sending := false }
  else
    { s with
      error := some (jsStr resp.detail "Failed to send email")
      sending := false }

/-- C7: on every response with ok false, each handler records an error
(taking the body's detail field when it is a usable message), leaves the
success state null, does not invoke onAnalysisComplete and triggers no
download — no failure becomes a success. -/
theorem failed_response_never_success (resp : HttpResponse) (h : resp.ok = false) :
    (handleAnalyzeResponse resp).error.isSome = true ∧
    (handleAnalyzeResponse resp).completed = false ∧
    (∀ f, (handleGenerateResumeResponse f resp).error.isSome = true ∧
      (handleGenerateResumeResponse f resp).success = none ∧
      (handleGenerateResumeResponse f resp).downloaded = false ∧
      (handleGenerateResumeResponse f resp).pathSet = false) ∧
    (∀ f, (handleGenerateCoverLetterResponse f resp).error.isSome = true ∧
      (handleGenerateCoverLetterResponse f resp).success = none ∧
      (handleGenerateCoverLetterResponse f resp).downloaded = false ∧
      (handleGenerateCoverLetterResponse f resp).pathSet = false) ∧
    (∀ s : EmailState, s.success = none →
      (handleSendEmailResponse s resp).success = none ∧
      (handleSendEmailResponse s resp).error.isSome = true) ∧
    (∀ d, resp.detail = some d → d ≠ "" →
      (handleAnalyzeResponse resp).error = some d) := by
  refine ⟨?_, ?_, ?_, ?_, ?_, ?_⟩
  · simp [handleAnalyzeResponse, h]
  · simp [handleAnalyzeResponse, h]
  · intro f
    simp [handleGenerateResumeResponse, h]
  · intro f
    simp [handleGenerateCoverLetterResponse, h]
  · intro s hs
    simp [handleSendEmailResponse, h, hs]
  · intro d hd hne
    simp [handleAnalyzeResponse, h, hd, jsStr, hne]

/-- Witness for C7 at a failed response carrying a detail message. -/
theorem failed_response_never_success_witness :
    (handleAnalyzeResponse { ok := false, detail := some "Bad PDF", message := none }).error
      = some "Bad PDF" ∧
    (handleAnalyzeResponse { ok := false, detail := some "Bad PDF", message := none }).completed
      = false :=
  have h := failed_response_never_success
    { ok := false, detail := some "Bad PDF", message := none } rfl
  ⟨h.2.2.2.2.2 "Bad PDF" rfl (by decide), h.2.1⟩

/-! ## AI analysis client retry policy (spec-modelled) -/

/-- Outcome of one attempt to call the upstream AI service. -/
inductive AIOutcome where
  | transient
  | malformed
  | ok (payload : String)

/-- Result surfaced to the caller of the AI analysis client. -/
inductive AIResult where
  | success (payload : String)
  | serviceUnavailable
  | malformedResponse
deriving DecidableEq

/-- Modelled from the spec: the retry policy of the AI analysis client
(section 4.2; the backend AI client is not among the sources).  The
oracle gives the outcome of each numbered attempt.  Only transient
network errors are retried, with exponential backoff delay
`baseDelay * 2 ^ attempt` before each retry; the fuel counts the retries
still allowed.  Returns the surfaced result, the total number of
attempts made, and the list of backoff delays waited. -/
def retryLoop (oracle : Nat → AIOutcome) (baseDelay : Nat) :
    Nat → Nat → AIResult × Nat × List Nat
  | attempt, fuel =>
    match oracle attempt with
    | .ok p => (.success p, attempt + 1, [])
    | .malformed => (.malformedResponse, attempt + 1, [])
    | .transient =>
        match fuel with
        | 0 => (.serviceUnavailable, attempt + 1, [])
        | fuel₂ + 1 =>
            let rest := retryLoop oracle baseDelay (attempt + 1) fuel₂
            (rest.1, rest.2.1, baseDelay * 2 ^ attempt :: rest.2.2)

/-- Modelled from the spec: analyze runs the attempt loop with at most
2 retries. -/
def analyzeWithRetry (oracle : Nat → AIOutcome) (baseDelay : Nat) :
    AIResult × Nat × List Nat :=
  retryLoop oracle baseDelay 0 2

theorem retryLoop_attempts_le (oracle : Nat → AIOutcome) (baseDelay : Nat) :
    ∀ fuel attempt, (retryLoop oracle baseDelay attempt fuel).2.1 ≤ attempt + fuel + 1 := by
  intro fuel
  induction fuel with
  | zero =>
      intro attempt
      cases hor : oracle attempt <;> simp [retryLoop, hor]
  | succ n ih =>
      intro attempt
      cases hor : oracle attempt <;> simp [retryLoop, hor]
      have := ih (attempt + 1)
      omega

/-- C8: the AI client makes at most 3 attempts (2 retries) — a 3rd retry
never occurs; three transient failures surface serviceUnavailable after
exactly the two exponential backoff delays; a malformed response is
surfaced immediately and never retried, whether it is the first outcome
or follows a transient failure. -/
theorem ai_retry_policy :
    (∀ oracle baseDelay, (analyzeWithRetry oracle baseDelay).2.1 ≤ 3) ∧
    (∀ oracle baseDelay, oracle 0 = AIOutcome.transient →
      oracle 1 = AIOutcome.transient → oracle 2 = AIOutcome.transient →
      analyzeWithRetry oracle baseDelay
        = (AIResult.serviceUnavailable, 3, [baseDelay, baseDelay * 2])) ∧
    (∀ oracle baseDelay, oracle 0 = AIOutcome.malformed →
      analyzeWithRetry oracle baseDelay = (AIResult.malformedResponse, 1, [])) ∧
    (∀ oracle baseDelay, oracle 0 = AIOutcome.transient →
      oracle 1 = AIOutcome.malformed →
      analyzeWithRetry oracle baseDelay
        = (AIResult.malformedResponse, 2, [baseDelay])) := by
  refine ⟨?_, ?_, ?_, ?_⟩
  · intro oracle baseDelay
    have := retryLoop_attempts_le oracle baseDelay 2 0
    simpa [analyzeWithRetry] using this
  · intro oracle baseDelay h0 h1 h2
    simp [analyzeWithRetry, retryLoop, h0, h1, h2]
  · intro oracle baseDelay h0
    simp [analyzeWithRetry, retryLoop, h0]
  · intro oracle baseDelay h0 h1
    simp [analyzeWithRetry, retryLoop, h0, h1]

/-- Witness for C8 at an always-transient oracle and an immediately
malformed oracle. -/
theorem ai_retry_policy_witness :
    analyzeWithRetry (fun _ => AIOutcome.transient) 100
      = (AIResult.serviceUnavailable, 3, [100, 200]) ∧
    analyzeWithRetry (fun _ => AIOutcome.malformed) 100
      = (AIResult.malformedResponse, 1, []) :=
  ⟨by
      have h := ai_retry_policy.2.1 (fun _ => AIOutcome.transient) 100 rfl rfl rfl
      simpa using h,
    ai_retry_policy.2.2.1 (fun _ => AIOutcome.malformed) 100 rfl⟩

/-! ## Home page state and reset -/

/-- The two steps of the Home page. -/
inductive HomeStep where
  | upload
  | results
deriving DecidableEq

/-- State of the Home page: the step, the analysis payload, the two
uploaded files and the generated document paths. -/
structure HomeState where
  step : HomeStep
  analysisData : Option AnalysisData
  uploadedResume : Option FileInfo
  uploadedJobDescription : Option FileInfo
  generatedDocs : GeneratedDocs
deriving DecidableEq

/-- handleReset in page.tsx: returns to the upload step and clears the
analysis data and uploaded files; it does not touch generatedDocs. -/
def handleReset (s : HomeState) : HomeState :=
  { s with
    step := HomeStep.upload
    analysisData := none
    uploadedResume := none
    uploadedJobDescription := none }

/-- C9: handleReset sets step to upload and clears analysisData and the
uploaded files, while generatedDocs is left unchanged, so previously
generated document paths persist across a reset. -/
theorem handleReset_frame (s : HomeState) :
    (handleReset s).step = HomeStep.upload ∧
    (handleReset s).analysisData = none ∧
    (handleReset s).uploadedResume = none ∧
    (handleReset s).uploadedJobDescription = none ∧
    (handleReset s).generatedDocs = s.generatedDocs :=
  ⟨rfl, rfl, rfl, rfl, rfl⟩

end CareerAssistant
